import Mathlib

/-
Verification development for the Jobmate-AI compatibility scoring and
bidirectional matching engine.

The Python services are shallowly embedded:
* real-valued scores become `ℚ` (exact arithmetic; IEEE-754 representation
  error is out of scope of this model),
* Python `round` (round half to even) becomes `pyRound`,
  `round(x, 2)` becomes `pyRound2`, `int(x)` truncation becomes `pyIntTrunc`,
* Python `str.lower`/`str.strip` become ASCII `List Char` transformations,
* `Optional[int]` becomes `Option ℤ`; Python truthiness tests on such values
  (`if x:`) are modelled as "`x` is present and nonzero",
* the injected LLM capabilities (critical-skill classifier, work-history
  judge) and the pgvector nearest-neighbor retrieval are collaborator
  interfaces passed in as explicit parameters; an exception raised by a
  capability (including output that fails JSON parsing) is an `Except.error`,
* The stable Python `list.sort` is modelled by `List.insertionSort`, which is
  also stable, so it computes the same list for any sort key.

Sources embedded:
* `app/services/ai/compatibility_scorer_service.py` (namespace
  `CompatibilityScorer`),
* `app/services/ai/job_matcher_service.py` (namespace `JobMatcher`),
* `app/api/v1/endpoints/compatibility.py` (batch endpoint loop).
-/

/-- Python `round(q)`: round half to even, on exact rationals. -/
def pyRound (q : ℚ) : ℤ :=
  let f := Rat.floor q
  let r := q - (f : ℚ)
  if r < 1/2 then f
  else if 1/2 < r then f + 1
  else if f % 2 = 0 then f else f + 1

/-- Python `round(q, 2)`: round to two decimal places, half to even. -/
def pyRound2 (q : ℚ) : ℚ := (pyRound (q * 100) : ℚ) / 100

/-- Python `int(q)`: truncation toward zero. -/
def pyIntTrunc (q : ℚ) : ℤ := q.num.tdiv (q.den : ℤ)

/-- Python `str.strip`: drop whitespace at both ends. -/
def trimChars (l : List Char) : List Char :=
  ((l.dropWhile Char.isWhitespace).reverse.dropWhile Char.isWhitespace).reverse

/-- Python `s.lower().strip()` (ASCII model), the normalization used by the
skill matcher of the compatibility scorer. -/
def pyLowerStrip (s : String) : String := ⟨trimChars (s.data.map Char.toLower)⟩

/-- Python `s.strip().lower()` (ASCII model), the normalization used by the
skill overlap of the job matcher. -/
def pyStripLower (s : String) : String := ⟨(trimChars s.data).map Char.toLower⟩

/-- Python `s.lower()` (ASCII model). -/
def pyLower (s : String) : String := ⟨s.data.map Char.toLower⟩

namespace CompatibilityScorer

/-- Result record of `_calculate_skill_match`
(`compatibility_scorer_service.py`, lines 124-172). -/
structure SkillMatch where
  score : ℚ
  matched_required : List String
  missing_required : List String
  matched_preferred : List String
  missing_preferred : List String
  additional_skills : List String
  match_rate : ℚ
  critical_missing : List String

/-- Embedding of `CompatibilityScorerService._calculate_skill_match`.
Candidate skills are normalized with `lower().strip()`; `critical_missing`
uses plain (non-normalized) membership, and `additional_skills` compares a
`lower().strip()` candidate skill against merely lowercased job skills,
exactly as in the source. -/
def calculate_skill_match (candidate_skills required preferred critical :
    List String) : SkillMatch :=
  if required.isEmpty then
    ⟨1, [], [], [], [], [], 1, []⟩
  else
    let c_skills_lower := candidate_skills.map pyLowerStrip
    let matched_req := required.filter (fun s => c_skills_lower.contains (pyLowerStrip s))
    let missing_req := required.filter (fun s => !(c_skills_lower.contains (pyLowerStrip s)))
    let matched_pref := preferred.filter (fun s => c_skills_lower.contains (pyLowerStrip s))
    let missing_pref := preferred.filter (fun s => !(c_skills_lower.contains (pyLowerStrip s)))
    let critical_missing := missing_req.filter (fun s => critical.contains s)
    let coverage : ℚ := (matched_req.length : ℚ) / (required.length : ℚ)
    let penalty : ℚ := (critical_missing.length : ℚ) * 0.15
    let bonus : ℚ := (matched_pref.length : ℚ) * 0.05
    let score := min 1 (max 0 (coverage - penalty + bonus))
    let all_job_skills := (required ++ preferred).map pyLower
    let additional := candidate_skills.filter (fun s => !(all_job_skills.contains (pyLowerStrip s)))
    ⟨pyRound2 score, matched_req, missing_req, matched_pref, missing_pref,
     additional.take 5, pyRound2 coverage, critical_missing⟩

/-- Result record of `_calculate_experience_match`
(`compatibility_scorer_service.py`, lines 174-219). -/
structure ExperienceMatch where
  score : ℚ
  candidate_years : ℤ
  required_years : ℤ
  gap : ℤ
  assessment : String
  details : String

/-- Python truthiness test `if max_years and candidate_years > bound:` for an
`Optional[int]`: the option is present, nonzero, and the comparison holds. -/
def optTruthyAndGt (max_years : Option ℤ) (bound_offset candidate_years : ℤ) : Bool :=
  match max_years with
  | none => false
  | some mx => if mx = 0 then false else decide (mx + bound_offset < candidate_years)

/-- Embedding of `CompatibilityScorerService._calculate_experience_match`.
`candidate_years or 0` and `min_years or 0` coincide with `Option.getD 0`. -/
def calculate_experience_match (candidate_years0 min_years0 max_years :
    Option ℤ) : ExperienceMatch :=
  let cy := candidate_years0.getD 0
  let mn := min_years0.getD 0
  if mn ≤ cy then
    if optTruthyAndGt max_years 5 cy then
      ⟨0.95, cy, mn, 0, "exceeds",
       toString cy ++ " years exceeds requirement significantly."⟩
    else
      ⟨1, cy, mn, 0, if cy = mn then "meets_requirement" else "exceeds",
       toString cy ++ " years meets the " ++ toString mn ++ "+ years requirement."⟩
  else
    let gap := mn - cy
    if gap ≤ 1 then
      ⟨0.85, cy, mn, gap, "slightly_below",
       toString cy ++ " years is slightly below the " ++ toString mn ++ " years requirement."⟩
    else if gap ≤ 2 then
      ⟨0.70, cy, mn, gap, "significantly_below",
       "Missing 2 years of required experience."⟩
    else
      ⟨0.50, cy, mn, gap, "significantly_below",
       "Significant experience gap (" ++ toString gap ++ " years)."⟩

/-- One work-history entry as used by `_analyze_work_experience` (title,
company, duration). -/
structure WorkEntry where
  title : String
  company : String
  duration : String

/-- The JSON object returned by the injected work-history judgment
capability, after parsing: each expected key may be absent. -/
structure LLMJudgment where
  score : Option ℚ
  relevant_count : Option ℤ
  recent_relevant : Option Bool
  progression : Option String

/-- Result record of `_analyze_work_experience`
(`compatibility_scorer_service.py`, lines 250-287). -/
structure WorkExperienceRelevance where
  score : ℚ
  relevant_positions : ℤ
  total_positions : ℕ
  recent_experience_relevant : Bool
  career_progression : String

/-- Embedding of `CompatibilityScorerService._analyze_work_experience`.
The injected capability is a parameter: `Except.error` stands for any raised
exception (LLM failure, timeout, or `json.loads` failing on unparseable
output); `Except.ok d` is a successfully parsed JSON object whose keys may be
missing, in which case `dict.get` defaults apply exactly as in the source. -/
def analyze_work_experience (work_history : List WorkEntry)
    (capability : Except Unit LLMJudgment) : WorkExperienceRelevance :=
  match work_history with
  | [] => ⟨0.5, 0, 0, false, "Unclear"⟩
  | w :: ws =>
    match capability with
    | .error _ => ⟨0.7, 1, (w :: ws).length, true, "Standard"⟩
    | .ok d =>
      ⟨(d.score.getD 70) / 100, d.relevant_count.getD 0, (w :: ws).length,
       d.recent_relevant.getD false, d.progression.getD ("Stable")⟩

/-- Embedding of `CompatibilityScorerService._interpret_semantic_score`. -/
def interpret_semantic_score (score : ℚ) : String :=
  if 0.85 < score then "Very strong semantic match"
  else if 0.70 < score then "Strong match"
  else if 0.50 < score then "Moderate match"
  else "Low semantic match"

/-- Embedding of `CompatibilityScorerService._get_recommendation_level`. -/
def get_recommendation_level (score : ℤ) : String :=
  if 85 ≤ score then "highly_recommended"
  else if 70 ≤ score then "recommended"
  else if 55 ≤ score then "potential_fit"
  else "not_recommended"

/-- The weighted overall score of `calculate_compatibility`
(`compatibility_scorer_service.py`, lines 66-75): weights 40/25/15/10/10 over
skill, experience, education, work relevance, and semantic sub-scores. -/
def calculate_overall_score (skill exp edu work sem : ℚ) : ℤ :=
  pyRound (skill * 100 * 0.40 + exp * 100 * 0.25 + edu * 100 * 0.15 +
           work * 100 * 0.10 + sem * 100 * 0.10)

/-- The score-bearing fields of the `CompatibilityScore` record built by
`calculate_compatibility` (lines 89-102): `overall_score`,
`match_percentage`, and the recommendation tier. -/
structure AggregateResult where
  overall_score : ℤ
  match_percentage : ℤ
  recommendation : String

/-- Aggregation core of `CompatibilityScorerService.calculate_compatibility`:
given the five component sub-scores, produce the overall score (the rounded
weighted sum), the match percentage (assigned the same value), and the
recommendation tier. -/
def calculate_compatibility (skill exp edu work sem : ℚ) : AggregateResult :=
  let overall := calculate_overall_score skill exp edu work sem
  ⟨overall, overall, get_recommendation_level overall⟩

end CompatibilityScorer

namespace JobMatcher

/-- Python `x or default` for an optional string: `None` and the empty string
are falsy. Used for `row.name or "Unknown Candidate"`. -/
def pyOrString (x : Option String) (default : String) : String :=
  match x with
  | none => default
  | some s => if s = "" then default else s

/-- Result dict of `JobMatcherService._calculate_skill_match`
(`job_matcher_service.py`, lines 270-298): keys `score`, `matched`,
`missing`. -/
structure SkillOverlap where
  score : ℚ
  matched : List String
  missing : List String

/-- Embedding of `JobMatcherService._calculate_skill_match` (job→candidates
direction). If no skills are required it returns score 1.0 via the early
return on line 273; otherwise score = |matched| / |required| with
`strip().lower()` normalization and no critical-skill penalty. -/
def calculate_skill_match (candidate_skills required_skills : List String) :
    SkillOverlap :=
  if required_skills.isEmpty then
    ⟨1, [], []⟩
  else
    let c_skills_lower := candidate_skills.map pyStripLower
    let matched := required_skills.filter
      (fun s => c_skills_lower.contains (pyStripLower s))
    let missing := required_skills.filter
      (fun s => !(c_skills_lower.contains (pyStripLower s)))
    ⟨(matched.length : ℚ) / (required_skills.length : ℚ), matched, missing⟩

/-- Python truthiness test `elif max_years and candidate_years > max_years:`
on line 315: present, nonzero, and exceeded. -/
def overMaxCheck (max_years : Option ℤ) (candidate_years : ℤ) : Bool :=
  match max_years with
  | none => false
  | some mx => if mx = 0 then false else decide (mx < candidate_years)

/-- Embedding of `JobMatcherService._calculate_experience_match`
(`job_matcher_service.py`, lines 300-320). -/
def calculate_experience_match (candidate_years : ℤ)
    (min_years max_years : Option ℤ) : ℚ :=
  match min_years with
  | none => 0.8
  | some mn =>
    if candidate_years < mn then
      max 0 (1 - ((mn - candidate_years : ℤ) : ℚ) * 0.2)
    else if overMaxCheck max_years candidate_years then 0.9
    else 1

/-- The job→candidates overall weighting (`job_matcher_service.py`,
lines 188-192): similarity 40%, skill overlap 40%, experience fit 20%. -/
def overall_weighting (similarity skill_score exp_score : ℚ) : ℚ :=
  similarity * 0.4 + skill_score * 0.4 + exp_score * 0.2

/-- Result dict of `JobMatcherService._generate_match_details`. -/
structure MatchDetails where
  recommendation : String
  explanation : String

/-- The recommendation threshold chain of
`JobMatcherService._generate_match_details` (lines 326-333), acting on the
0-1 overall score. -/
def recommendation_label (overall_score : ℚ) : String :=
  if 0.80 ≤ overall_score then "highly_recommended"
  else if 0.65 ≤ overall_score then "recommended"
  else if 0.50 ≤ overall_score then "potential_fit"
  else "not_recommended"

/-- Embedding of `JobMatcherService._generate_match_details`
(`job_matcher_service.py`, lines 322-357). `min_exp and candidate_exp <
min_exp` on line 349 is a Python truthiness test. -/
def generate_match_details (overall_score : ℚ) (skill_data : SkillOverlap)
    (exp_score : ℚ) (candidate_exp : ℤ) (min_exp : Option ℤ) : MatchDetails :=
  let recommendation := recommendation_label overall_score
  let matched_count := skill_data.matched.length
  let total_req := matched_count + skill_data.missing.length
  let parts0 : List String :=
    if 0 < total_req then
      [toString matched_count ++ "/" ++ toString total_req ++ " skills matched."]
    else ["No specific skills required."]
  let minExpBelow : Bool :=
    match min_exp with
    | none => false
    | some mn => if mn = 0 then false else decide (candidate_exp < mn)
  let parts :=
    if 0.9 ≤ exp_score then
      parts0 ++ ["Experience (" ++ toString candidate_exp ++ "y) fits well."]
    else if minExpBelow then
      parts0 ++ ["Below exp req (" ++ toString (min_exp.getD 0) ++ "y+)."]
    else parts0
  ⟨recommendation, String.intercalate (" ") parts⟩

/-- The oversampled shortlist size used by both matching directions
(`search_limit = limit * 2`, lines 71 and 168). -/
def search_limit (limit : ℕ) : ℕ := limit * 2

/-- One row of the candidate→jobs vector search (lines 54-76): job id,
display fields, cosine distance, and whether a `job_analyses` row was found
for the job (`None` models the missing joined record of line 96). -/
structure JobRow where
  job_id : ℤ
  title : String
  company : String
  location : String
  distance : ℚ
  job_analysis : Option Unit

/-- The score-bearing fields of one entry of the candidate→jobs result list
(lines 114-124); the embedded full compatibility report is abstracted to its
`overall_score`. -/
structure JobMatch where
  job_id : ℤ
  similarity_score : ℚ
  overall_match_score : ℤ

/-- Descending order on `overall_match_score`, the sort key of
`matches.sort(key ..., reverse=True)`, which keys on the overall match score. -/
def jobDesc (a b : JobMatch) : Prop :=
  b.overall_match_score ≤ a.overall_match_score

instance : DecidableRel jobDesc := fun a b =>
  inferInstanceAs (Decidable (b.overall_match_score ≤ a.overall_match_score))

instance : IsTotal JobMatch jobDesc :=
  ⟨fun a b => le_total b.overall_match_score a.overall_match_score⟩

instance : IsTrans JobMatch jobDesc :=
  ⟨fun _ _ _ h1 h2 => le_trans h2 h1⟩

/-- The loop body of `find_matching_jobs` (lines 80-124): for each retrieved
row, skip it when its job analysis is missing, compute the full compatibility
report (abstracted by `score_of`, the integer `overall_score` of the report), skip
the row when `overall_score < min_score * 100`, and otherwise emit a match
entry. -/
def score_filter_rows (score_of : JobRow → ℤ) (min_score : ℚ)
    (rows : List JobRow) : List JobMatch :=
  rows.filterMap (fun row =>
    match row.job_analysis with
    | none => none
    | some _ =>
      if ((score_of row : ℤ) : ℚ) < min_score * 100 then none
      else some ⟨row.job_id, pyRound2 (1 - row.distance), score_of row⟩)

/-- Candidate profile data fetched by `_get_candidate_data`; the embedding
vector is abstracted into the retrieval parameter. -/
structure CandidateData where
  skills : List String
  experience_years : Option ℤ

/-- Embedding of `JobMatcherService.find_matching_jobs`
(`job_matcher_service.py`, lines 28-129). `candidate_data = none` models a
`parsed_cv_id` that does not resolve to a profile with an embedding (early
return of the empty list, lines 43-45). `nn` is the nearest-neighbor
retrieval, called with the oversampled `search_limit limit`; `score_of`
abstracts `scorer.calculate_compatibility(...).overall_score` for a row. The
final list is sorted descending by overall score and truncated to `limit`. -/
def find_matching_jobs (candidate_data : Option CandidateData)
    (nn : ℕ → List JobRow) (score_of : JobRow → ℤ) (limit : ℕ)
    (min_score : ℚ) : List JobMatch :=
  match candidate_data with
  | none => []
  | some _ =>
    ((score_filter_rows score_of min_score (nn (search_limit limit))).insertionSort
      jobDesc).take limit

/-- One row of the job→candidates vector search (lines 156-173). -/
structure CandRow where
  document_id : ℤ
  parsed_cv_id : ℤ
  name : Option String
  skills : Option (List String)
  experience_years : Option ℤ
  distance : ℚ

/-- One entry of the job→candidates result list (lines 201-214). -/
structure CandidateMatch where
  candidate_id : ℤ
  document_id : ℤ
  name : String
  similarity_score : ℚ
  skill_match_score : ℚ
  experience_match_score : ℚ
  overall_match_score : ℚ
  match_percentage : ℤ
  matched_skills : List String
  missing_skills : List String
  match_explanation : String
  recommendation : String

/-- Job requirement data fetched by `_get_job_data`; the embedding vector is
abstracted into the retrieval parameter. -/
structure JobData where
  required_skills : List String
  min_years_experience : Option ℤ
  max_years_experience : Option ℤ

/-- Descending order on the job→candidates `overall_match_score` sort key. -/
def candDesc (a b : CandidateMatch) : Prop :=
  b.overall_match_score ≤ a.overall_match_score

instance : DecidableRel candDesc := fun a b =>
  inferInstanceAs (Decidable (b.overall_match_score ≤ a.overall_match_score))

instance : IsTotal CandidateMatch candDesc :=
  ⟨fun a b => le_total b.overall_match_score a.overall_match_score⟩

instance : IsTrans CandidateMatch candDesc :=
  ⟨fun _ _ _ h1 h2 => le_trans h2 h1⟩

/-- The loop body of `find_matching_candidates` (lines 177-214): per row,
compute similarity, skill overlap and experience fit, combine them with the
40/40/20 weighting, skip the row when below `min_score`, and otherwise emit
the match entry with its rounded scores and generated details. -/
def process_candidate_rows (jd : JobData) (min_score : ℚ)
    (rows : List CandRow) : List CandidateMatch :=
  rows.filterMap (fun row =>
    let similarity := 1 - row.distance
    let candidate_skills := row.skills.getD []
    let candidate_experience := row.experience_years.getD 0
    let sk := calculate_skill_match candidate_skills jd.required_skills
    let ex := calculate_experience_match candidate_experience
      jd.min_years_experience jd.max_years_experience
    let overall := overall_weighting similarity sk.score ex
    if overall < min_score then none
    else
      let details := generate_match_details overall sk ex candidate_experience
        jd.min_years_experience
      some ⟨row.parsed_cv_id, row.document_id,
            pyOrString row.name ("Unknown Candidate"),
            pyRound2 similarity, pyRound2 sk.score, pyRound2 ex,
            pyRound2 overall, pyIntTrunc (overall * 100),
            sk.matched, sk.missing, details.explanation,
            details.recommendation⟩)

/-- Embedding of `JobMatcherService.find_matching_candidates`
(`job_matcher_service.py`, lines 131-217). `job_data = none` models a
`job_id` that does not resolve to a job with an embedding (early return of
the empty list, lines 146-148). -/
def find_matching_candidates (job_data : Option JobData)
    (nn : ℕ → List CandRow) (limit : ℕ) (min_score : ℚ) :
    List CandidateMatch :=
  match job_data with
  | none => []
  | some jd =>
    ((process_candidate_rows jd min_score (nn (search_limit limit))).insertionSort
      candDesc).take limit

end JobMatcher

/-- Embedding of the per-item loop of `batch_compatibility_score`
(`compatibility.py`, lines 125-161): items are processed strictly in order;
`process` bundles everything done for one job id inside the `try` block, with
`Except.error` standing for any raised exception (the `except` clause logs
and continues) and `Except.ok` for an appended score. Skips for missing job
posts or analyses are collaborator outcomes also representable as errors of
the item. The function is total: the loop itself never raises. -/
def batch_compatibility_score {ι σ : Type} (job_post_ids : List ι)
    (process : ι → Except Unit σ) : List σ :=
  match job_post_ids with
  | [] => []
  | j :: rest =>
    match process j with
    | .ok s => s :: batch_compatibility_score rest process
    | .error _ => batch_compatibility_score rest process

/-- Concrete processing function used to exercise the batch loop: job id 2
raises, every other id succeeds with score id+1. -/
def witnessProcess : ℕ → Except Unit ℕ :=
  fun n => if n = 2 then .error () else .ok (n + 1)

theorem rat_floor_eq_int_floor (q : ℚ) : Rat.floor q = ⌊q⌋ := by
  rw [Rat.floor_def', Rat.floor_def]

theorem pyRound_eq_of_lt_half (q : ℚ) (n : ℤ) (h1 : (n : ℚ) ≤ q)
    (h2 : q - (n : ℚ) < 1/2) : pyRound q = n := by
  have hf : ⌊q⌋ = n := by
    apply Int.floor_eq_iff.mpr
    refine ⟨h1, ?_⟩
    linarith
  unfold pyRound
  rw [rat_floor_eq_int_floor, hf, if_pos h2]

theorem pyRound_eq_of_gt_half (q : ℚ) (n : ℤ) (h1 : (n : ℚ) ≤ q)
    (h2 : 1/2 < q - (n : ℚ)) (h3 : q < (n : ℚ) + 1) : pyRound q = n + 1 := by
  have hf : ⌊q⌋ = n := by
    apply Int.floor_eq_iff.mpr
    exact ⟨h1, by linarith⟩
  unfold pyRound
  rw [rat_floor_eq_int_floor, hf, if_neg (by linarith), if_pos h2]

theorem pyRound2_eq_of_lt_half (q : ℚ) (n : ℤ) (h1 : (n : ℚ) ≤ q * 100)
    (h2 : q * 100 - (n : ℚ) < 1/2) : pyRound2 q = (n : ℚ) / 100 := by
  unfold pyRound2
  rw [pyRound_eq_of_lt_half (q * 100) n h1 h2]

/-- C1: for every tuple of five sub-scores in [0,1], the overall_score of
the aggregator is the half-to-even rounding of 100 times the
0.40/0.25/0.15/0.10/0.10 weighted sum of skill, experience, education, work
and semantic sub-scores, and `match_percentage` equals `overall_score`. -/
theorem overall_score_is_rounded_weighted_sum (skill exp edu work sem : ℚ)
    (hskill : 0 ≤ skill ∧ skill ≤ 1) (hexp : 0 ≤ exp ∧ exp ≤ 1)
    (hedu : 0 ≤ edu ∧ edu ≤ 1) (hwork : 0 ≤ work ∧ work ≤ 1)
    (hsem : 0 ≤ sem ∧ sem ≤ 1) :
    (CompatibilityScorer.calculate_compatibility skill exp edu work sem).overall_score
      = pyRound (100 * (0.40 * skill + 0.25 * exp + 0.15 * edu +
          0.10 * work + 0.10 * sem))
    ∧ (CompatibilityScorer.calculate_compatibility skill exp edu work sem).match_percentage
      = (CompatibilityScorer.calculate_compatibility skill exp edu work sem).overall_score := by
  constructor
  · show CompatibilityScorer.calculate_overall_score skill exp edu work sem = _
    unfold CompatibilityScorer.calculate_overall_score
    congr 1
    ring
  · rfl

theorem overall_score_is_rounded_weighted_sum_witness :
    ((0:ℚ) ≤ 1 ∧ (1:ℚ) ≤ 1) ∧ ((0:ℚ) ≤ 1/2 ∧ (1/2:ℚ) ≤ 1) ∧
    ((CompatibilityScorer.calculate_compatibility 1 (1/2) (1/2) (1/2) (1/2)).overall_score
       = pyRound (100 * (0.40 * 1 + 0.25 * (1/2) + 0.15 * (1/2) +
           0.10 * (1/2) + 0.10 * (1/2)))
     ∧ (CompatibilityScorer.calculate_compatibility 1 (1/2) (1/2) (1/2) (1/2)).match_percentage
       = (CompatibilityScorer.calculate_compatibility 1 (1/2) (1/2) (1/2) (1/2)).overall_score) :=
  ⟨by norm_num, by norm_num,
   overall_score_is_rounded_weighted_sum 1 (1/2) (1/2) (1/2) (1/2)
     (by norm_num) (by norm_num) (by norm_num) (by norm_num) (by norm_num)⟩

/-- C5: for every integer overall score in 0-100, the recommendation tier is
exactly: highly_recommended iff ≥85, recommended iff 70-84, potential_fit iff
55-69, not_recommended iff ≤54. -/
theorem recommendation_tier_thresholds (s : ℤ) (h0 : 0 ≤ s) (h100 : s ≤ 100) :
    (CompatibilityScorer.get_recommendation_level s = "highly_recommended" ↔ 85 ≤ s)
    ∧ (CompatibilityScorer.get_recommendation_level s = "recommended" ↔ 70 ≤ s ∧ s ≤ 84)
    ∧ (CompatibilityScorer.get_recommendation_level s = "potential_fit" ↔ 55 ≤ s ∧ s ≤ 69)
    ∧ (CompatibilityScorer.get_recommendation_level s = "not_recommended" ↔ s ≤ 54) := by
  unfold CompatibilityScorer.get_recommendation_level
  split_ifs with h1 h2 h3 <;>
    refine ⟨⟨fun hs => ?_, fun hs => ?_⟩, ⟨fun hs => ?_, fun hs => ?_⟩,
            ⟨fun hs => ?_, fun hs => ?_⟩, ⟨fun hs => ?_, fun hs => ?_⟩⟩ <;>
    first
      | rfl
      | omega
      | exact absurd hs (by decide)

theorem recommendation_tier_thresholds_witness :
    (0 ≤ (85:ℤ)) ∧ ((85:ℤ) ≤ 100) ∧
    ((CompatibilityScorer.get_recommendation_level 85 = "highly_recommended" ↔ 85 ≤ (85:ℤ))
     ∧ (CompatibilityScorer.get_recommendation_level 85 = "recommended" ↔ 70 ≤ (85:ℤ) ∧ (85:ℤ) ≤ 84)
     ∧ (CompatibilityScorer.get_recommendation_level 85 = "potential_fit" ↔ 55 ≤ (85:ℤ) ∧ (85:ℤ) ≤ 69)
     ∧ (CompatibilityScorer.get_recommendation_level 85 = "not_recommended" ↔ (85:ℤ) ≤ 54)) :=
  ⟨by decide, by decide, recommendation_tier_thresholds 85 (by decide) (by decide)⟩

/-- C9: a candidate id that does not resolve to a stored profile with an
embedding makes `find_matching_jobs` return the empty list, and a job id
that does not resolve makes `find_matching_candidates` return the empty
list; both embeddings are total functions, so the NotFound outcome is never
surfaced as an error from the matching operations. -/
theorem unresolved_ids_give_empty_results :
    (∀ (nn : ℕ → List JobMatcher.JobRow) (score_of : JobMatcher.JobRow → ℤ)
       (limit : ℕ) (min_score : ℚ),
       JobMatcher.find_matching_jobs none nn score_of limit min_score = [])
    ∧ (∀ (nn : ℕ → List JobMatcher.CandRow) (limit : ℕ) (min_score : ℚ),
       JobMatcher.find_matching_candidates none nn limit min_score = []) :=
  ⟨fun _ _ _ _ => rfl, fun _ _ _ => rfl⟩

theorem recommendation_label_iff (q : ℚ) :
    (JobMatcher.recommendation_label q = "highly_recommended" ↔ 0.80 ≤ q)
    ∧ (JobMatcher.recommendation_label q = "recommended" ↔ 0.65 ≤ q ∧ q < 0.80)
    ∧ (JobMatcher.recommendation_label q = "potential_fit" ↔ 0.50 ≤ q ∧ q < 0.65)
    ∧ (JobMatcher.recommendation_label q = "not_recommended" ↔ q < 0.50) := by
  unfold JobMatcher.recommendation_label
  split_ifs with h1 h2 h3
  · exact ⟨⟨fun _ => h1, fun _ => rfl⟩,
      ⟨fun hs => absurd hs (by decide), fun hs => absurd h1 (by linarith [hs.2])⟩,
      ⟨fun hs => absurd hs (by decide), fun hs => absurd h1 (by linarith [hs.2])⟩,
      ⟨fun hs => absurd hs (by decide), fun hs => absurd h1 (by linarith [hs])⟩⟩
  · exact ⟨⟨fun hs => absurd hs (by decide), fun hs => absurd hs h1⟩,
      ⟨fun _ => ⟨h2, not_le.mp h1⟩, fun _ => rfl⟩,
      ⟨fun hs => absurd hs (by decide), fun hs => absurd h2 (by linarith [hs.2])⟩,
      ⟨fun hs => absurd hs (by decide), fun hs => absurd h2 (by linarith [hs])⟩⟩
  · exact ⟨⟨fun hs => absurd hs (by decide), fun hs => absurd hs h1⟩,
      ⟨fun hs => absurd hs (by decide), fun hs => absurd hs.1 h2⟩,
      ⟨fun _ => ⟨h3, not_le.mp h2⟩, fun _ => rfl⟩,
      ⟨fun hs => absurd hs (by decide), fun hs => absurd h3 (by linarith [hs])⟩⟩
  · exact ⟨⟨fun hs => absurd hs (by decide), fun hs => absurd hs h1⟩,
      ⟨fun hs => absurd hs (by decide), fun hs => absurd hs.1 h2⟩,
      ⟨fun hs => absurd hs (by decide), fun hs => absurd hs.1 h3⟩,
      ⟨fun _ => not_le.mp h3, fun _ => rfl⟩⟩

/-- C10: in the job→candidates direction the recommendation label on each
match is computed from the 0-1 overall score with thresholds 0.80/0.65/0.50,
and these differ from the 85/70/55 integer tiers of the aggregator: a 0.82
overall is highly_recommended here while the tier of the aggregator at 82 is
only recommended. -/
theorem match_details_recommendation_thresholds :
    (∀ (overall : ℚ) (sk : JobMatcher.SkillOverlap) (ex : ℚ) (ce : ℤ)
       (me : Option ℤ),
      ((JobMatcher.generate_match_details overall sk ex ce me).recommendation
          = "highly_recommended" ↔ 0.80 ≤ overall)
      ∧ ((JobMatcher.generate_match_details overall sk ex ce me).recommendation
          = "recommended" ↔ 0.65 ≤ overall ∧ overall < 0.80)
      ∧ ((JobMatcher.generate_match_details overall sk ex ce me).recommendation
          = "potential_fit" ↔ 0.50 ≤ overall ∧ overall < 0.65)
      ∧ ((JobMatcher.generate_match_details overall sk ex ce me).recommendation
          = "not_recommended" ↔ overall < 0.50))
    ∧ (JobMatcher.generate_match_details 0.82 ⟨1, [], []⟩ 1 0 none).recommendation
        = "highly_recommended"
    ∧ CompatibilityScorer.get_recommendation_level 82 = "recommended" := by
  refine ⟨fun overall sk ex ce me => recommendation_label_iff overall, ?_, ?_⟩
  · show JobMatcher.recommendation_label 0.82 = _
    unfold JobMatcher.recommendation_label
    rw [if_pos (by norm_num)]
  · decide

/-- C4 counterexample: at candidate_years = 6, min_years = 0, max_years = 0
the clause "0.95 when max_years is set and candidate_years > max_years + 5"
of the claim predicts score 0.95, but `if max_years and ...` in the code treats the set
value 0 as falsy and returns score 1.0. -/
theorem experience_match_truthiness_counterexample :
    (CompatibilityScorer.calculate_experience_match (some 6) (some 0) (some 0)).score = 1
    ∧ (CompatibilityScorer.calculate_experience_match (some 6) (some 0) (some 0)).score
        ≠ 0.95 := by
  constructor
  · rfl
  · show (1 : ℚ) ≠ 0.95
    norm_num

/-- C4 (amended): for candidate_years ≥ 0, min_years ≥ 0 and optional
max_years, the experience score is a step function of
gap = max(0, min_years − candidate_years): gap 0 gives 1.0, or 0.95 exactly
when a nonzero max_years is set and candidate_years > max_years + 5 (the
Python-truthiness reading of "max_years is set"); gap 1 gives 0.85
slightly_below; gap 2 gives 0.70 and gap ≥ 3 gives 0.50, both
significantly_below. -/
theorem experience_match_step_function (cy mn : ℤ) (hcy : 0 ≤ cy)
    (hmn : 0 ≤ mn) (mx : Option ℤ) :
    (mn - cy ≤ 0 → CompatibilityScorer.optTruthyAndGt mx 5 cy = true →
      (CompatibilityScorer.calculate_experience_match (some cy) (some mn) mx).score = 0.95
      ∧ (CompatibilityScorer.calculate_experience_match (some cy) (some mn) mx).assessment
          = "exceeds")
    ∧ (mn - cy ≤ 0 → CompatibilityScorer.optTruthyAndGt mx 5 cy = false →
      (CompatibilityScorer.calculate_experience_match (some cy) (some mn) mx).score = 1)
    ∧ (mn - cy = 1 →
      (CompatibilityScorer.calculate_experience_match (some cy) (some mn) mx).score = 0.85
      ∧ (CompatibilityScorer.calculate_experience_match (some cy) (some mn) mx).assessment
          = "slightly_below")
    ∧ (mn - cy = 2 →
      (CompatibilityScorer.calculate_experience_match (some cy) (some mn) mx).score = 0.70
      ∧ (CompatibilityScorer.calculate_experience_match (some cy) (some mn) mx).assessment
          = "significantly_below")
    ∧ (3 ≤ mn - cy →
      (CompatibilityScorer.calculate_experience_match (some cy) (some mn) mx).score = 0.50
      ∧ (CompatibilityScorer.calculate_experience_match (some cy) (some mn) mx).assessment
          = "significantly_below") := by
  refine ⟨fun hg ht => ?_, fun hg ht => ?_, fun hg => ?_, fun hg => ?_, fun hg => ?_⟩
  · simp [CompatibilityScorer.calculate_experience_match, show mn ≤ cy by omega, ht]
  · simp [CompatibilityScorer.calculate_experience_match, show mn ≤ cy by omega, ht]
  · simp [CompatibilityScorer.calculate_experience_match, show ¬(mn ≤ cy) by omega,
      show mn - cy ≤ 1 by omega]
  · simp [CompatibilityScorer.calculate_experience_match, show ¬(mn ≤ cy) by omega,
      show ¬(mn - cy ≤ 1) by omega, show mn - cy ≤ 2 by omega]
  · simp [CompatibilityScorer.calculate_experience_match, show ¬(mn ≤ cy) by omega,
      show ¬(mn - cy ≤ 1) by omega, show ¬(mn - cy ≤ 2) by omega]

theorem experience_match_step_function_witness :
    (0 ≤ (3:ℤ)) ∧ (0 ≤ (5:ℤ)) ∧
    ((CompatibilityScorer.calculate_experience_match (some 3) (some 5) none).score = 0.70
     ∧ (CompatibilityScorer.calculate_experience_match (some 3) (some 5) none).assessment
         = "significantly_below") :=
  ⟨by decide, by decide,
   (experience_match_step_function 3 5 (by decide) (by decide) none).2.2.2.1 (by decide)⟩

/-- C3 counterexample: with an empty required-skill list the job→candidates
skill matcher returns score 1.0 (early return, line 273), not the 0.0 the
claim states. -/
theorem jm_skill_overlap_empty_counterexample :
    (JobMatcher.calculate_skill_match ["Python"] []).score = 1
    ∧ (JobMatcher.calculate_skill_match ["Python"] []).score ≠ 0 := by
  refine ⟨rfl, ?_⟩
  show (1 : ℚ) ≠ 0
  norm_num

/-- C3 (amended): in the job→candidates direction the overall score combines
similarity, skill overlap and experience fit with weights 0.4/0.4/0.2, where
skill_overlap = |matched|/|required| for non-empty required skills and 1.0
when required is empty, and experience_fit follows the banded rule: 0.8 when
min_years is unspecified; max(0, 1 − 0.2×gap) when candidate_years <
min_years; 0.9 when a nonzero max_years is set and candidate_years exceeds
it; else 1.0. -/
theorem job_to_candidates_weighting_and_components :
    (∀ s k e : ℚ, JobMatcher.overall_weighting s k e = s * 0.4 + k * 0.4 + e * 0.2)
    ∧ (∀ cand : List String, (JobMatcher.calculate_skill_match cand []).score = 1)
    ∧ (∀ (cand : List String) (req : List String), req ≠ [] →
        (JobMatcher.calculate_skill_match cand req).score
          = (((req.filter (fun s =>
                (cand.map pyStripLower).contains (pyStripLower s))).length : ℚ))
              / ((req.length : ℚ)))
    ∧ (∀ (cy : ℤ) (mx : Option ℤ), JobMatcher.calculate_experience_match cy none mx = 0.8)
    ∧ (∀ (cy mn : ℤ) (mx : Option ℤ), cy < mn →
        JobMatcher.calculate_experience_match cy (some mn) mx
          = max 0 (1 - (((mn - cy : ℤ)) : ℚ) * 0.2))
    ∧ (∀ cy mn mx : ℤ, mn ≤ cy → mx ≠ 0 → mx < cy →
        JobMatcher.calculate_experience_match cy (some mn) (some mx) = 0.9)
    ∧ (∀ cy mn : ℤ, mn ≤ cy →
        JobMatcher.calculate_experience_match cy (some mn) none = 1)
    ∧ (∀ cy mn mx : ℤ, mn ≤ cy → (mx = 0 ∨ cy ≤ mx) →
        JobMatcher.calculate_experience_match cy (some mn) (some mx) = 1) := by
  refine ⟨fun s k e => rfl, fun cand => rfl, fun cand req hreq => ?_,
    fun cy mx => rfl, fun cy mn mx hlt => ?_, fun cy mn mx hle hnz hgt => ?_,
    fun cy mn hle => ?_, fun cy mn mx hle hor => ?_⟩
  · cases req with
    | nil => exact absurd rfl hreq
    | cons r rs => simp [JobMatcher.calculate_skill_match]
  · simp [JobMatcher.calculate_experience_match, hlt]
  · simp [JobMatcher.calculate_experience_match, show ¬(cy < mn) by omega,
      JobMatcher.overMaxCheck, hnz, hgt]
  · simp [JobMatcher.calculate_experience_match, show ¬(cy < mn) by omega,
      JobMatcher.overMaxCheck]
  · rcases hor with h0 | hle2
    · simp [JobMatcher.calculate_experience_match, show ¬(cy < mn) by omega,
        JobMatcher.overMaxCheck, h0]
    · simp [JobMatcher.calculate_experience_match, show ¬(cy < mn) by omega,
        JobMatcher.overMaxCheck, show ¬(mx < cy) by omega]

theorem job_to_candidates_weighting_witness :
    (3:ℤ) < 5 ∧
    JobMatcher.calculate_experience_match 3 (some 5) none
      = max 0 (1 - ((((5:ℤ) - 3 : ℤ)) : ℚ) * 0.2) :=
  ⟨by decide, (job_to_candidates_weighting_and_components).2.2.2.2.1 3 5 none (by decide)⟩

/-- C6 counterexample: for a one-entry work history and a capability that
returns well-formed JSON that is an empty object (all expected keys
absent — malformed relative to the expected verdict structure), the assessor
does not return the claimed fixed fallback (score 0.7, relevant_positions 1,
recent true, progression "Standard"): it fills per-field defaults instead
(relevant_positions 0, recent false, progression "Stable"). -/
theorem work_history_malformed_output_counterexample :
    CompatibilityScorer.analyze_work_experience [⟨"Developer", "Acme", "2 years"⟩]
        (.ok ⟨none, none, none, none⟩)
      ≠ ⟨0.7, 1, 1, true, "Standard"⟩ := by
  intro h
  have h2 := congrArg CompatibilityScorer.WorkExperienceRelevance.relevant_positions h
  simp [CompatibilityScorer.analyze_work_experience] at h2

/-- C6 (amended): the work-history assessor never propagates a failure of
the injected capability: for empty work history it returns the neutral
record (score 0.5, no positions, progression "Unclear") independently of the
capability; for non-empty history and a capability that raises (exception,
timeout, or output that fails JSON parsing) it returns exactly the fixed
fallback (score 0.7, relevant_positions 1, total_positions = history length,
recent true, progression "Standard"); and for output that parses as JSON but
omits expected keys, each missing key defaults individually (score 70→0.7,
relevant_positions 0, recent false, progression "Stable") rather than
triggering the fixed fallback. -/
theorem work_history_assessor_never_fails :
    (∀ cap, CompatibilityScorer.analyze_work_experience [] cap
        = ⟨0.5, 0, 0, false, "Unclear"⟩)
    ∧ (∀ (w : CompatibilityScorer.WorkEntry) (ws : List CompatibilityScorer.WorkEntry),
        CompatibilityScorer.analyze_work_experience (w :: ws) (.error ())
          = ⟨0.7, 1, (w :: ws).length, true, "Standard"⟩)
    ∧ (∀ (w : CompatibilityScorer.WorkEntry) (ws : List CompatibilityScorer.WorkEntry)
        (d : CompatibilityScorer.LLMJudgment),
        CompatibilityScorer.analyze_work_experience (w :: ws) (.ok d)
          = ⟨(d.score.getD 70) / 100, d.relevant_count.getD 0, (w :: ws).length,
             d.recent_relevant.getD false, d.progression.getD ("Stable")⟩) :=
  ⟨fun _ => rfl, fun _ _ => rfl, fun _ _ _ => rfl⟩

theorem batch_all_ok {ι σ : Type} (l : List ι) (process : ι → Except Unit σ)
    (f : ι → σ) (h : ∀ y ∈ l, process y = .ok (f y)) :
    batch_compatibility_score l process = l.map f := by
  induction l with
  | nil => rfl
  | cons x xs ih =>
    have hx := h x (List.mem_cons_self x xs)
    simp only [batch_compatibility_score, hx, List.map_cons]
    exact congrArg _ (ih fun y hy => h y (List.mem_cons_of_mem x hy))

theorem batch_skips_error_mid {ι σ : Type} (xs ys : List ι) (x : ι)
    (process : ι → Except Unit σ) (f : ι → σ)
    (hx : process x = .error ())
    (hok : ∀ y ∈ xs ++ ys, process y = .ok (f y)) :
    batch_compatibility_score (xs ++ x :: ys) process = xs.map f ++ ys.map f := by
  induction xs with
  | nil =>
    simp only [List.nil_append, List.map_nil]
    simp only [batch_compatibility_score, hx]
    exact batch_all_ok ys process f fun y hy => hok y (by simpa using hy)
  | cons a as ih =>
    have ha : process a = .ok (f a) := hok a (by simp)
    simp only [List.cons_append, batch_compatibility_score, ha, List.map_cons]
    exact congrArg _ (ih fun y hy => hok y (by
      rcases List.mem_append.mp hy with h1 | h2
      · exact List.mem_append.mpr (Or.inl (List.mem_cons_of_mem a h1))
      · exact List.mem_append.mpr (Or.inr h2)))

/-- C7: for a batch of job ids in which exactly one id raises an exception
mid-loop (`process x = error`) and every other id succeeds, the batch
returns exactly the successful results in input order — N−1 results for N
ids — and, being a total function, never raises. -/
theorem batch_one_failure_keeps_other_results {ι σ : Type} (xs ys : List ι)
    (x : ι) (process : ι → Except Unit σ) (f : ι → σ)
    (hx : process x = .error ())
    (hok : ∀ y ∈ xs ++ ys, process y = .ok (f y)) :
    batch_compatibility_score (xs ++ x :: ys) process = xs.map f ++ ys.map f
    ∧ (batch_compatibility_score (xs ++ x :: ys) process).length + 1
        = (xs ++ x :: ys).length := by
  have hmain := batch_skips_error_mid xs ys x process f hx hok
  refine ⟨hmain, ?_⟩
  rw [hmain]
  simp only [List.length_append, List.length_map, List.length_cons]
  omega

theorem batch_one_failure_keeps_other_results_witness :
    witnessProcess 2 = .error ()
    ∧ batch_compatibility_score ([1] ++ 2 :: [3]) witnessProcess
        = [1].map (· + 1) ++ [3].map (· + 1)
    ∧ (batch_compatibility_score ([1] ++ 2 :: [3]) witnessProcess).length + 1
        = ([1] ++ 2 :: [3]).length := by
  have h := batch_one_failure_keeps_other_results [1] [3] 2 witnessProcess (· + 1)
    rfl (by intro y hy; simp at hy; rcases hy with rfl | rfl <;> rfl)
  exact ⟨rfl, h.1, h.2⟩

theorem skill_match_formula_general (cand req pref crit : List String)
    (hreq : req ≠ []) :
    (CompatibilityScorer.calculate_skill_match cand req pref crit).matched_required
        = req.filter (fun s => (cand.map pyLowerStrip).contains (pyLowerStrip s))
    ∧ (CompatibilityScorer.calculate_skill_match cand req pref crit).missing_required
        = req.filter (fun s => !((cand.map pyLowerStrip).contains (pyLowerStrip s)))
    ∧ (CompatibilityScorer.calculate_skill_match cand req pref crit).matched_preferred
        = pref.filter (fun s => (cand.map pyLowerStrip).contains (pyLowerStrip s))
    ∧ (CompatibilityScorer.calculate_skill_match cand req pref crit).critical_missing
        = (req.filter (fun s => !((cand.map pyLowerStrip).contains (pyLowerStrip s)))).filter
            (fun s => crit.contains s)
    ∧ (CompatibilityScorer.calculate_skill_match cand req pref crit).score
        = pyRound2 (min 1 (max 0
            (((CompatibilityScorer.calculate_skill_match cand req pref crit).matched_required.length : ℚ)
               / (req.length : ℚ)
             - ((CompatibilityScorer.calculate_skill_match cand req pref crit).critical_missing.length : ℚ) * 0.15
             + ((CompatibilityScorer.calculate_skill_match cand req pref crit).matched_preferred.length : ℚ) * 0.05)))
    ∧ (CompatibilityScorer.calculate_skill_match cand req pref crit).match_rate
        = pyRound2 (((CompatibilityScorer.calculate_skill_match cand req pref crit).matched_required.length : ℚ)
            / (req.length : ℚ)) := by
  cases req with
  | nil => exact absurd rfl hreq
  | cons r rs =>
    simp [CompatibilityScorer.calculate_skill_match]

theorem skill_match_example_fields :
    (CompatibilityScorer.calculate_skill_match ["Python", "Docker"]
        ["Python", "FastAPI", "PostgreSQL"] [] ["FastAPI"]).matched_required = ["Python"]
    ∧ (CompatibilityScorer.calculate_skill_match ["Python", "Docker"]
        ["Python", "FastAPI", "PostgreSQL"] [] ["FastAPI"]).missing_required
        = ["FastAPI", "PostgreSQL"]
    ∧ (CompatibilityScorer.calculate_skill_match ["Python", "Docker"]
        ["Python", "FastAPI", "PostgreSQL"] [] ["FastAPI"]).matched_preferred = []
    ∧ (CompatibilityScorer.calculate_skill_match ["Python", "Docker"]
        ["Python", "FastAPI", "PostgreSQL"] [] ["FastAPI"]).critical_missing
        = ["FastAPI"] := by
  refine ⟨?_, ?_, ?_, ?_⟩ <;> decide

theorem skill_match_example_score :
    (CompatibilityScorer.calculate_skill_match ["Python", "Docker"]
        ["Python", "FastAPI", "PostgreSQL"] [] ["FastAPI"]).score = 9/50
    ∧ (CompatibilityScorer.calculate_skill_match ["Python", "Docker"]
        ["Python", "FastAPI", "PostgreSQL"] [] ["FastAPI"]).match_rate = 33/100 := by
  obtain ⟨hm, hmiss, hp, hc, hs, hr⟩ := skill_match_formula_general
    ["Python", "Docker"] ["Python", "FastAPI", "PostgreSQL"] [] ["FastAPI"] (by decide)
  obtain ⟨em, emiss, ep, ec⟩ := skill_match_example_fields
  rw [em, ec, ep] at hs
  rw [em] at hr
  have harg : (((["Python"] : List String).length : ℚ)
        / ((["Python", "FastAPI", "PostgreSQL"] : List String).length : ℚ)
      - ((["FastAPI"] : List String).length : ℚ) * 0.15
      + ((([] : List String)).length : ℚ) * 0.05) = 11/60 := by
    norm_num
  rw [harg] at hs
  have hclamp : min (1 : ℚ) (max 0 (11/60)) = 11/60 := by
    rw [max_eq_right (show (0:ℚ) ≤ 11/60 by norm_num),
        min_eq_right (show (11/60:ℚ) ≤ 1 by norm_num)]
  rw [hclamp] at hs
  have hcov : (((["Python"] : List String).length : ℚ)
      / ((["Python", "FastAPI", "PostgreSQL"] : List String).length : ℚ)) = 1/3 := by
    norm_num
  rw [hcov] at hr
  constructor
  · rw [hs, pyRound2_eq_of_lt_half (11/60) 18 (by norm_num) (by norm_num)]
    norm_num
  · rw [hr, pyRound2_eq_of_lt_half (1/3) 33 (by norm_num) (by norm_num)]
    norm_num

/-- C2 counterexample: at the concrete input given by the claim itself
(candidate=["Python","Docker"], required=["Python","FastAPI","PostgreSQL"],
critical=["FastAPI"]) the returned score is the 2-decimal rounding
0.18 = 9/50, not the claimed exact clamp value
clamp(1/3 − 0.15×1 + 0.05×0, 0, 1) = 11/60. -/
theorem skill_match_score_unrounded_counterexample :
    (CompatibilityScorer.calculate_skill_match ["Python", "Docker"]
        ["Python", "FastAPI", "PostgreSQL"] [] ["FastAPI"]).score
      ≠ min 1 (max 0 ((1:ℚ)/3 - 1 * 0.15 + 0 * 0.05)) := by
  rw [skill_match_example_score.1,
      show ((1:ℚ)/3 - 1 * 0.15 + 0 * 0.05) = 11/60 by norm_num,
      max_eq_right (show (0:ℚ) ≤ 11/60 by norm_num),
      min_eq_right (show (11/60:ℚ) ≤ 1 by norm_num)]
  norm_num

/-- C2 (amended): if required is empty the skill matcher returns score 1.0,
match_rate 1.0 and empty matched/missing lists; otherwise, with matching on
trimmed lowercased strings, the returned score is the clamp
coverage − 0.15×|critical_missing| + 0.05×|matched_preferred| to [0,1],
rounded to 2 decimals, and match_rate is coverage rounded to 2 decimals. At
the concrete input required=["Python","FastAPI","PostgreSQL"],
candidate=["Python","Docker"], critical=["FastAPI"]: matched=["Python"]
(coverage 1/3), critical_missing=["FastAPI"], score = 0.18 = 9/50,
match_rate = 0.33 = 33/100. -/
theorem skill_match_score_formula :
    (∀ cand pref crit : List String,
      CompatibilityScorer.calculate_skill_match cand [] pref crit
        = ⟨1, [], [], [], [], [], 1, []⟩)
    ∧ (∀ cand req pref crit : List String, req ≠ [] →
      (CompatibilityScorer.calculate_skill_match cand req pref crit).matched_required
          = req.filter (fun s => (cand.map pyLowerStrip).contains (pyLowerStrip s))
      ∧ (CompatibilityScorer.calculate_skill_match cand req pref crit).missing_required
          = req.filter (fun s => !((cand.map pyLowerStrip).contains (pyLowerStrip s)))
      ∧ (CompatibilityScorer.calculate_skill_match cand req pref crit).matched_preferred
          = pref.filter (fun s => (cand.map pyLowerStrip).contains (pyLowerStrip s))
      ∧ (CompatibilityScorer.calculate_skill_match cand req pref crit).critical_missing
          = (req.filter (fun s => !((cand.map pyLowerStrip).contains (pyLowerStrip s)))).filter
              (fun s => crit.contains s)
      ∧ (CompatibilityScorer.calculate_skill_match cand req pref crit).score
          = pyRound2 (min 1 (max 0
              (((CompatibilityScorer.calculate_skill_match cand req pref crit).matched_required.length : ℚ)
                 / (req.length : ℚ)
               - ((CompatibilityScorer.calculate_skill_match cand req pref crit).critical_missing.length : ℚ) * 0.15
               + ((CompatibilityScorer.calculate_skill_match cand req pref crit).matched_preferred.length : ℚ) * 0.05)))
      ∧ (CompatibilityScorer.calculate_skill_match cand req pref crit).match_rate
          = pyRound2 (((CompatibilityScorer.calculate_skill_match cand req pref crit).matched_required.length : ℚ)
              / (req.length : ℚ)))
    ∧ ((CompatibilityScorer.calculate_skill_match ["Python", "Docker"]
          ["Python", "FastAPI", "PostgreSQL"] [] ["FastAPI"]).matched_required = ["Python"]
       ∧ (CompatibilityScorer.calculate_skill_match ["Python", "Docker"]
          ["Python", "FastAPI", "PostgreSQL"] [] ["FastAPI"]).critical_missing = ["FastAPI"]
       ∧ (CompatibilityScorer.calculate_skill_match ["Python", "Docker"]
          ["Python", "FastAPI", "PostgreSQL"] [] ["FastAPI"]).score = 9/50
       ∧ (CompatibilityScorer.calculate_skill_match ["Python", "Docker"]
          ["Python", "FastAPI", "PostgreSQL"] [] ["FastAPI"]).match_rate = 33/100) :=
  ⟨fun _ _ _ => rfl,
   fun cand req pref crit h => skill_match_formula_general cand req pref crit h,
   skill_match_example_fields.1, skill_match_example_fields.2.2.2,
   skill_match_example_score.1, skill_match_example_score.2⟩

theorem skill_match_score_formula_witness :
    ((["A"] : List String) ≠ []) ∧
    (CompatibilityScorer.calculate_skill_match [] ["A"] [] []).score
      = pyRound2 (min 1 (max 0
          (((CompatibilityScorer.calculate_skill_match [] ["A"] [] []).matched_required.length : ℚ)
             / (((["A"] : List String)).length : ℚ)
           - ((CompatibilityScorer.calculate_skill_match [] ["A"] [] []).critical_missing.length : ℚ) * 0.15
           + ((CompatibilityScorer.calculate_skill_match [] ["A"] [] []).matched_preferred.length : ℚ) * 0.05))) :=
  ⟨by decide, (skill_match_score_formula.2.1 [] ["A"] [] [] (by decide)).2.2.2.2.1⟩

theorem mem_score_filter_rows_score_ge (score_of : JobMatcher.JobRow → ℤ)
    (min_score : ℚ) (rows : List JobMatcher.JobRow) (m : JobMatcher.JobMatch)
    (hm : m ∈ JobMatcher.score_filter_rows score_of min_score rows) :
    min_score * 100 ≤ (m.overall_match_score : ℚ) := by
  unfold JobMatcher.score_filter_rows at hm
  rw [List.mem_filterMap] at hm
  obtain ⟨row, _hrow, heq⟩ := hm
  split at heq
  · exact absurd heq (by simp)
  · split at heq
    · exact absurd heq (by simp)
    · next hcond =>
      obtain rfl := Option.some.inj heq
      exact not_lt.mp hcond

/-- C8: in the candidate→jobs direction, the nearest-neighbor query size is
exactly 2×limit (limit 10 requests 20); a retrieved row whose job
requirement record is missing is skipped rather than failing the call; every
returned entry has overall_score ≥ min_score×100; the returned list is
sorted descending by overall score; and its length is at most limit. -/
theorem find_matching_jobs_pipeline :
    (∀ limit : ℕ, JobMatcher.search_limit limit = 2 * limit)
    ∧ JobMatcher.search_limit 10 = 20
    ∧ (∀ (score_of : JobMatcher.JobRow → ℤ) (min_score : ℚ)
         (xs ys : List JobMatcher.JobRow) (r : JobMatcher.JobRow),
         r.job_analysis = none →
         JobMatcher.score_filter_rows score_of min_score (xs ++ r :: ys)
           = JobMatcher.score_filter_rows score_of min_score (xs ++ ys))
    ∧ (∀ (cd : Option JobMatcher.CandidateData) (nn : ℕ → List JobMatcher.JobRow)
         (score_of : JobMatcher.JobRow → ℤ) (limit : ℕ) (min_score : ℚ)
         (m : JobMatcher.JobMatch),
         m ∈ JobMatcher.find_matching_jobs cd nn score_of limit min_score →
         min_score * 100 ≤ (m.overall_match_score : ℚ))
    ∧ (∀ (cd : Option JobMatcher.CandidateData) (nn : ℕ → List JobMatcher.JobRow)
         (score_of : JobMatcher.JobRow → ℤ) (limit : ℕ) (min_score : ℚ),
         List.Sorted JobMatcher.jobDesc
           (JobMatcher.find_matching_jobs cd nn score_of limit min_score))
    ∧ (∀ (cd : Option JobMatcher.CandidateData) (nn : ℕ → List JobMatcher.JobRow)
         (score_of : JobMatcher.JobRow → ℤ) (limit : ℕ) (min_score : ℚ),
         (JobMatcher.find_matching_jobs cd nn score_of limit min_score).length
           ≤ limit) := by
  refine ⟨fun limit => Nat.mul_comm limit 2, rfl, ?_, ?_, ?_, ?_⟩
  · intro score_of min_score xs ys r hr
    unfold JobMatcher.score_filter_rows
    rw [List.filterMap_append, List.filterMap_append]
    congr 1
    simp [List.filterMap_cons, hr]
  · intro cd nn score_of limit min_score m hm
    cases cd with
    | none => simp [JobMatcher.find_matching_jobs] at hm
    | some c =>
      simp only [JobMatcher.find_matching_jobs] at hm
      have h1 := List.take_subset _ _ hm
      have h2 := (List.perm_insertionSort JobMatcher.jobDesc _).subset h1
      exact mem_score_filter_rows_score_ge score_of min_score _ m h2
  · intro cd nn score_of limit min_score
    cases cd with
    | none => exact List.sorted_nil
    | some c =>
      exact (List.sorted_insertionSort JobMatcher.jobDesc _).sublist
        (List.take_sublist _ _)
  · intro cd nn score_of limit min_score
    cases cd with
    | none => exact Nat.zero_le _
    | some c => exact List.length_take_le _ _

theorem find_matching_jobs_pipeline_witness :
    (JobMatcher.JobRow.mk 1 ("T") ("C") ("L") 0 none).job_analysis = none ∧
    JobMatcher.score_filter_rows (fun _ => 50) 0
        ([] ++ JobMatcher.JobRow.mk 1 ("T") ("C") ("L") 0 none :: [])
      = JobMatcher.score_filter_rows (fun _ => 50) 0 ([] ++ []) :=
  ⟨rfl, find_matching_jobs_pipeline.2.2.1 (fun _ => 50) 0 [] []
    (JobMatcher.JobRow.mk 1 ("T") ("C") ("L") 0 none) rfl⟩
